import Mathlib

/-!
Shallow embedding of the OneDrive authorization-testing repository.

Covered here: the policy decision engine and scenario generator of
policy_model.py (class AuthorizationPolicy), the execution engines and
environment provisioning of test_framework.py (class OneDriveTestFramework)
and Test_multiFramework_User.py (class MultiUserTestFramework), and the
dispatch targets of onedrive_client.py.

Embedding conventions: Python strings are `String`; dictionaries with a
fixed key set are structures; the `test_files` dictionary keyed by
visibility is an association list; each remote HTTP call made through
OneDriveClient is an abstract environment function from the requested
operation to either a status code or a raised exception (`Except`), since
the claims only depend on `status_code`; a Python exception escaping a
function is the `.error` case of `Except`. Timestamps, `time.sleep`, and
console printing are not modelled. The inline dispatch block of each
`test_scenario` is factored into an explicit dispatch-plan function so the
operation actually sent to the remote service is a first-class value; the
list of operations attempted is returned as a trace.
-/

namespace OneDriveAuth

namespace AuthorizationPolicy

/-- policy_model.py line 16. -/
def AUDIENCES : List String := ["owner", "invited_user", "normal_user"]

/-- policy_model.py line 17. -/
def VISIBILITY_LEVELS : List String :=
  ["private", "public_view_link", "public_edit_link", "collab_invite"]

/-- policy_model.py line 18. -/
def ACTIONS : List String := ["read", "write", "delete", "share"]

/-- Translation of AuthorizationPolicy.evaluate (policy_model.py lines 20-70).
Returns the Python string result, either ALLOW or DENY. -/
def evaluate (audience visibility action : String)
    (is_owner has_permission same_org : Bool) : String :=
  if is_owner then "ALLOW"
  else if visibility = "private" then
    if has_permission then
      if action ∈ ["read", "write"] then "ALLOW" else "DENY"
    else "DENY"
  else if visibility = "public_view_link" then
    if has_permission ∧ action = "read" then "ALLOW" else "DENY"
  else if visibility = "public_edit_link" then
    if has_permission ∧ action ∈ ["read", "write"] then "ALLOW" else "DENY"
  else if visibility = "collab_invite" then
    if has_permission ∧ action ∈ ["read", "write"] then "ALLOW" else "DENY"
  else "DENY"

/-- A scenario dictionary as built by generate_all_scenarios
(policy_model.py lines 109-117). -/
structure Scenario where
  scenario_id : Nat
  audience : String
  visibility : String
  action : String
  is_owner : Bool
  has_permission : Bool
  expected : String
deriving DecidableEq

/-- Translation of AuthorizationPolicy.generate_all_scenarios
(policy_model.py lines 72-122). The three nested for-loops with the running
scenario_id counter (initialised to 1) are embedded as a fold over the
product of the three enumerations, threading the appended list and the
counter exactly as the Python loop does. -/
def generate_all_scenarios : List Scenario :=
  let triples :=
    AUDIENCES.flatMap fun audience =>
      VISIBILITY_LEVELS.flatMap fun visibility =>
        ACTIONS.map fun action => (audience, visibility, action)
  (triples.foldl
    (fun (st : List Scenario × Nat) triple =>
      match triple with
      | (audience, visibility, action) =>
        let is_owner := audience == "owner"
        let has_permission :=
          if visibility == "public_view_link" then true
          else if visibility == "public_edit_link" then true
          else if visibility == "collab_invite" && audience == "invited_user" then true
          else false
        let expected := evaluate audience visibility action is_owner has_permission false
        let scenario : Scenario :=
          { scenario_id := st.2, audience := audience, visibility := visibility,
            action := action, is_owner := is_owner, has_permission := has_permission,
            expected := expected }
        (st.1 ++ [scenario], st.2 + 1))
    ([], 1)).1

/-- Default used only to state positional properties via List.getD. -/
def defaultScenario : Scenario :=
  { scenario_id := 0, audience := "", visibility := "", action := "",
    is_owner := false, has_permission := false, expected := "" }

end AuthorizationPolicy

open AuthorizationPolicy

/-- One remote operation requested through OneDriveClient
(onedrive_client.py): the claims only depend on which endpoint is hit with
which reference and payload, and on the status code of the answer, which is
supplied by the environment. -/
inductive RemoteOp where
  | readFile (file_id : String)
  | readFileViaShare (share_id : String)
  | updateFile (file_id : String) (content : String)
  | updateFileViaShare (share_id : String) (content : String)
  | shareFile (file_id : String)
  | shareFileViaShare (share_id : String)
deriving DecidableEq

/-- A remote environment: answers an operation with a status code, or raises
(the `.error` message standing for the Python exception). -/
def RemoteEnv := RemoteOp → Except String Nat

/-- Truthiness of an optional Python string (None and the empty string are
falsy), used for `share_id` in `use_share = (self.audience != 'owner' and share_id)`. -/
def optTruthy : Option String → Bool
  | none => false
  | some s => !(s == "")

namespace OneDriveTestFramework

/-- Result of OneDriveClient.create_file as consumed by setup: the client
exposes data (id) only when the status code is a success. -/
structure CreateResp where
  status_code : Nat
  id : String
  name : String
deriving DecidableEq

/-- Result of OneDriveClient.share_file as consumed by setup: the client
returns `data = {}` unless the status is 200/201, so the two data fields are
meaningful only then (setup re-applies that guard). `link_webUrl` models
`data["link"]["webUrl"]` when `"link" in data`. -/
structure ShareResp where
  status_code : Nat
  shareId : Option String
  link_webUrl : Option String
deriving DecidableEq

/-- Result of OneDriveClient.invite_user as consumed by setup:
`first_link_webUrl` models `data["value"][0]["link"]["webUrl"]`, `none` when
any key of that chain is missing (the try/except in setup catches that). -/
structure InviteResp where
  status_code : Nat
  first_link_webUrl : Option String
deriving DecidableEq

/-- The remote calls made by OneDriveTestFramework.setup_test_environment,
abstracted over their answers. -/
structure SetupEnv where
  user_info_status : Nat
  create : String → String → CreateResp
  share : String → String → String → ShareResp
  invite : String → List String → String → InviteResp

/-- One value of the test_files dictionary
(test_framework.py lines 67-99): id and name always, the sharing response
status and the computed share_id when sharing was applied. -/
structure OdFileEntry where
  id : String
  name : String := ""
  share_status : Option Nat := none
  invite_status : Option Nat := none
  share_id : Option String := none
deriving DecidableEq

/-- Character of the urlsafe base64 alphabet. -/
def b64urlChar (n : Nat) : Char :=
  if n < 26 then Char.ofNat (65 + n)
  else if n < 52 then Char.ofNat (97 + (n - 26))
  else if n < 62 then Char.ofNat (48 + (n - 52))
  else if n = 62 then Char.ofNat 45
  else Char.ofNat 95

/-- Urlsafe base64 of a byte list with the `=` padding stripped, as
`base64.urlsafe_b64encode(...).rstrip("=")` produces. -/
def b64urlEncodeNoPad : List Nat → List Char
  | [] => []
  | [b1] => [b64urlChar (b1 / 4), b64urlChar (b1 % 4 * 16)]
  | [b1, b2] =>
      [b64urlChar (b1 / 4), b64urlChar (b1 % 4 * 16 + b2 / 16),
       b64urlChar (b2 % 16 * 4)]
  | b1 :: b2 :: b3 :: rest =>
      b64urlChar (b1 / 4) :: b64urlChar (b1 % 4 * 16 + b2 / 16) ::
        b64urlChar (b2 % 16 * 4 + b3 / 64) :: b64urlChar (b3 % 64) ::
        b64urlEncodeNoPad rest

/-- Translation of compute_share_id (test_framework.py lines 41-43). -/
def compute_share_id (web_url : String) : String :=
  "u!" ++ String.mk (b64urlEncodeNoPad ((String.toUTF8 web_url).toList.map UInt8.toNat))

/-- The per-visibility specs list (test_framework.py lines 55-60). -/
def specs : List (String × String × String) :=
  [("private", "private_file.txt", "This is a private test file"),
   ("public_view_link", "public_view.txt", "This file is shared with a view-only link"),
   ("public_edit_link", "public_edit.txt", "This file is shared with an edit link"),
   ("collab_invite", "collab_file.txt", "This file is shared directly with a collaborator")]

/-- Body of the provisioning loop of setup_test_environment
(test_framework.py lines 62-102) for one spec: on a successful create the
entry is added (with the sharing state the loop attaches for that
visibility); on a failing create the error is printed and the loop simply
moves on without adding the entry and without any abort. -/
def setup_step (env : SetupEnv) (test_files : List (String × OdFileEntry))
    (spec : String × String × String) : List (String × OdFileEntry) :=
  match spec with
  | (visibility, filename, _content) =>
    let result := env.create filename _content
    if result.status_code ∈ [200, 201] then
      let file_id := result.id
      let entry0 : OdFileEntry := { id := file_id, name := filename }
      let entry :=
        if visibility = "public_view_link" then
          let share_resp := env.share file_id "view" "anonymous"
          let data_shareId :=
            if share_resp.status_code ∈ [200, 201] then share_resp.shareId else none
          let data_link :=
            if share_resp.status_code ∈ [200, 201] then share_resp.link_webUrl else none
          let share_id :=
            if optTruthy data_shareId then data_shareId
            else match data_link with
              | some webUrl => some (compute_share_id webUrl)
              | none => data_shareId
          { entry0 with share_status := some share_resp.status_code, share_id := share_id }
        else if visibility = "public_edit_link" then
          let share_resp := env.share file_id "edit" "anonymous"
          let data_shareId :=
            if share_resp.status_code ∈ [200, 201] then share_resp.shareId else none
          let data_link :=
            if share_resp.status_code ∈ [200, 201] then share_resp.link_webUrl else none
          let share_id :=
            if optTruthy data_shareId then data_shareId
            else match data_link with
              | some webUrl => some (compute_share_id webUrl)
              | none => data_shareId
          { entry0 with share_status := some share_resp.status_code, share_id := share_id }
        else if visibility = "collab_invite" then
          let invite_resp := env.invite file_id ["srinivasmekala1227@gmail.com"] "write"
          let share_id := invite_resp.first_link_webUrl.map compute_share_id
          { entry0 with invite_status := some invite_resp.status_code, share_id := share_id }
        else entry0
      test_files ++ [(visibility, entry)]
    else test_files

/-- Translation of OneDriveTestFramework.setup_test_environment
(test_framework.py lines 33-106): returns the test_files dictionary built
by the loop. The function has no failure exit at all: it always runs the
loop to completion and returns. -/
def setup_test_environment (env : SetupEnv) : List (String × OdFileEntry) :=
  specs.foldl (setup_step env) []

/-- A test-result dictionary of OneDriveTestFramework.test_scenario: the
early missing-fixture return carries the error field, the normal return
carries a timestamp instead (not modelled). -/
structure OdTestResult where
  scenario_id : Nat
  scenario : Scenario
  expected : String
  actual : String
  passed : Bool
  error : Option String := none
deriving DecidableEq

/-- What a completed call of OneDriveTestFramework.test_scenario hands back:
the result dictionary, the returned response status (None on the
missing-fixture path), and the trace of remote operations attempted. -/
structure OdCall where
  result : OdTestResult
  response : Option Nat
  trace : List RemoteOp
deriving DecidableEq

/-- A Python exception escaping test_scenario. -/
inductive PyErr where
  | unboundLocal (name : String)
deriving DecidableEq

/-- The operation the dispatch block of OneDriveTestFramework.test_scenario
(test_framework.py lines 139-161) sends for a given action, or `none` for
the final else branch where the code fabricates a local
`{'status_code': 400}` response without any remote call. -/
def dispatch_plan (action : String) (use_share : Bool)
    (file_id share_id : String) : Option RemoteOp :=
  if action = "read" then
    some (if use_share then .readFileViaShare share_id else .readFile file_id)
  else if action = "write" then
    some (if use_share then .updateFileViaShare share_id "Updated content"
          else .updateFile file_id "Updated content")
  else if action = "delete" then
    some (if use_share then .readFileViaShare share_id else .readFile file_id)
  else if action = "share" then
    some (if use_share then .shareFileViaShare share_id else .shareFile file_id)
  else none

/-- The status-code classification of OneDriveTestFramework.test_scenario
(test_framework.py lines 163-172). -/
def classify (status : Nat) : String :=
  if status ∈ [200, 201] then "ALLOW"
  else if status ∈ [400, 403, 404] then "DENY"
  else "UNKNOWN"

/-- Translation of OneDriveTestFramework.test_scenario
(test_framework.py lines 108-190). `audience` is the framework's
constructor argument `self.audience`; `test_files` is `self.test_files`.
When the dispatched client call raises, the except block assigns
`actual = 'ERROR'`, but the local variable `response` is then still
unbound, so the final `return result, response` raises UnboundLocalError:
that observable behaviour is the `.error` case. -/
def test_scenario (audience : String) (test_files : List (String × OdFileEntry))
    (env : RemoteEnv) (scenario : Scenario) : Except PyErr OdCall :=
  let visibility := scenario.visibility
  let action := scenario.action
  let expected := scenario.expected
  match test_files.lookup visibility with
  | none =>
      .ok { result := { scenario_id := scenario.scenario_id, scenario := scenario,
                        expected := expected, actual := "ERROR", passed := false,
                        error := some "Test file not found" },
            response := none, trace := [] }
  | some entry =>
      let file_id := entry.id
      let share_id := entry.share_id
      let use_share := (audience != "owner") && optTruthy share_id
      match dispatch_plan action use_share file_id (share_id.getD "") with
      | some op =>
          match env op with
          | .ok status =>
              let actual := classify status
              let passed := expected == actual
              .ok { result := { scenario_id := scenario.scenario_id, scenario := scenario,
                                expected := expected, actual := actual, passed := passed },
                    response := some status, trace := [op] }
          | .error _e => .error (.unboundLocal "response")
      | none =>
          let status := 400
          let actual := classify status
          let passed := expected == actual
          .ok { result := { scenario_id := scenario.scenario_id, scenario := scenario,
                            expected := expected, actual := actual, passed := passed },
                response := some status, trace := [] }

end OneDriveTestFramework

namespace MultiUserTestFramework

/-- Which of the two OneDriveClient instances of MultiUserTestFramework a
call goes through. -/
inductive ClientId where
  | ownerClient
  | collabClient
deriving DecidableEq

/-- A remote environment for the two-client framework. -/
def MuRemoteEnv := ClientId → RemoteOp → Except String Nat

/-- Result of OneDriveClient.get_user_info as consumed by setup. -/
structure InfoResp where
  status_code : Nat
  userPrincipalName : Option String
  mail : Option String
deriving DecidableEq

/-- Result of share_file as consumed by the multi-user setup: `webUrl`
models `data.get('link', {}).get('webUrl', 'N/A')` being present. -/
structure MuShareResp where
  status_code : Nat
  webUrl : Option String
deriving DecidableEq

/-- The remote calls made by MultiUserTestFramework.setup_test_environment,
abstracted over their answers. -/
structure MuSetupEnv where
  owner_info : InfoResp
  collab_info : InfoResp
  create : String → String → OneDriveTestFramework.CreateResp
  share : String → String → String → MuShareResp

/-- One value of the multi-user test_files dictionary
(Test_multiFramework_User.py lines 77-92). -/
structure MuFileEntry where
  id : String
  name : String
  share_link : Option String := none
deriving DecidableEq

/-- Test_multiFramework_User.py line 66. -/
def visibility_levels : List String := ["private", "shared", "org_public", "public"]

/-- Email resolution `data.get('userPrincipalName', data.get('mail', 'Unknown'))`. -/
def resolveEmail (info : InfoResp) : String :=
  info.userPrincipalName.getD (info.mail.getD "Unknown")

/-- What MultiUserTestFramework.setup_test_environment leaves behind:
its boolean return value and the fields it assigns. -/
structure MuSetupResult where
  success : Bool
  owner_email : Option String
  collab_email : Option String
  test_files : List (String × MuFileEntry)
deriving DecidableEq

/-- Body of the provisioning loop of the multi-user setup
(Test_multiFramework_User.py lines 68-94) for one visibility: a failing
create prints an error and is skipped, never aborting. -/
def mu_setup_step (env : MuSetupEnv) (owner_email : String)
    (test_files : List (String × MuFileEntry)) (visibility : String) :
    List (String × MuFileEntry) :=
  let filename := "multiuser_test_" ++ visibility ++ "_file.txt"
  let content := "This is a " ++ visibility ++
    " test file for multi-user testing.\nCreated by: " ++ owner_email
  let result := env.create filename content
  if result.status_code ∈ [200, 201] then
    let entry0 : MuFileEntry := { id := result.id, name := result.name }
    if visibility = "shared" then
      let share_result := env.share result.id "edit" "anonymous"
      if share_result.status_code ∈ [200, 201] then
        let share_link := share_result.webUrl.getD "N/A"
        test_files ++ [(visibility, { entry0 with share_link := some share_link })]
      else test_files ++ [(visibility, entry0)]
    else test_files ++ [(visibility, entry0)]
  else test_files

/-- Translation of MultiUserTestFramework.setup_test_environment
(Test_multiFramework_User.py lines 35-100): returns False only when one of
the two get_user_info calls is not a 200; once file creation starts there
is no failure exit, and the function ends with `return True`. -/
def setup_test_environment (env : MuSetupEnv) : MuSetupResult :=
  if env.owner_info.status_code = 200 then
    let owner_email := resolveEmail env.owner_info
    if env.collab_info.status_code = 200 then
      let collab_email := resolveEmail env.collab_info
      { success := true, owner_email := some owner_email,
        collab_email := some collab_email,
        test_files := visibility_levels.foldl (mu_setup_step env owner_email) [] }
    else
      { success := false, owner_email := some owner_email,
        collab_email := none, test_files := [] }
  else
    { success := false, owner_email := none, collab_email := none, test_files := [] }

/-- A result dictionary of MultiUserTestFramework.test_scenario: the early
missing-fixture return carries the error field and no tested_by, the normal
return carries tested_by (and a timestamp, not modelled). -/
structure MuTestResult where
  scenario_id : Nat
  scenario : Scenario
  expected : String
  actual : String
  passed : Bool
  tested_by : Option String := none
  error : Option String := none
deriving DecidableEq

/-- A completed call of MultiUserTestFramework.test_scenario: the result
dictionary plus the trace of remote operations attempted (tagged with the
client used). -/
structure MuCall where
  result : MuTestResult
  trace : List (ClientId × RemoteOp)
deriving DecidableEq

/-- The operation the dispatch block of MultiUserTestFramework.test_scenario
(Test_multiFramework_User.py lines 141-151) sends for a given action, or
`none` for the local `{'status_code': 400}` else branch. -/
def dispatch_plan (action : String) (file_id : String) (test_user : String) :
    Option RemoteOp :=
  if action = "read" then some (.readFile file_id)
  else if action = "write" then some (.updateFile file_id ("Updated by " ++ test_user))
  else if action = "delete" then some (.readFile file_id)
  else if action = "share" then some (.shareFile file_id)
  else none

/-- The status-code classification of MultiUserTestFramework.test_scenario
(Test_multiFramework_User.py lines 153-159). -/
def classify (status : Nat) : String :=
  if status ∈ [200, 201] then "ALLOW"
  else if status ∈ [403, 404, 401] then "DENY"
  else "UNKNOWN"

/-- Translation of MultiUserTestFramework.test_scenario
(Test_multiFramework_User.py lines 102-178). Here a raised client call is
caught and converted to `actual = 'ERROR'`, and the function always returns
a result dictionary (it never touches the unbound `response`). -/
def test_scenario (test_files : List (String × MuFileEntry)) (env : MuRemoteEnv)
    (scenario : Scenario) : MuCall :=
  let visibility := scenario.visibility
  let action := scenario.action
  let audience := scenario.audience
  let expected := scenario.expected
  match test_files.lookup visibility with
  | none =>
      { result := { scenario_id := scenario.scenario_id, scenario := scenario,
                    expected := expected, actual := "ERROR", passed := false,
                    error := some "Test file not found" },
        trace := [] }
  | some entry =>
      let file_id := entry.id
      let client := if audience = "owner" then ClientId.ownerClient else ClientId.collabClient
      let test_user := if audience = "owner" then "owner" else "collaborator"
      match dispatch_plan action file_id test_user with
      | some op =>
          match env client op with
          | .ok status =>
              let actual := classify status
              let passed := expected == actual
              { result := { scenario_id := scenario.scenario_id, scenario := scenario,
                            expected := expected, actual := actual, passed := passed,
                            tested_by := some test_user },
                trace := [(client, op)] }
          | .error _e =>
              let actual := "ERROR"
              let passed := expected == actual
              { result := { scenario_id := scenario.scenario_id, scenario := scenario,
                            expected := expected, actual := actual, passed := passed,
                            tested_by := some test_user },
                trace := [(client, op)] }
      | none =>
          let status := 400
          let actual := classify status
          let passed := expected == actual
          { result := { scenario_id := scenario.scenario_id, scenario := scenario,
                        expected := expected, actual := actual, passed := passed,
                        tested_by := some test_user },
            trace := [] }

/-- Translation of MultiUserTestFramework.run_all_tests
(Test_multiFramework_User.py lines 180-209): every generated scenario is
tested in order and its result dictionary appended. -/
def run_all_tests (test_files : List (String × MuFileEntry)) (env : MuRemoteEnv) :
    List MuTestResult :=
  generate_all_scenarios.map fun scenario => (test_scenario test_files env scenario).result

/-- The main flow of Test_multiFramework_User.py lines 332-346 after token
loading: provision, exit when setup returned False, otherwise run every
scenario and collect the results. -/
def mainFlow (senv : MuSetupEnv) (renv : MuRemoteEnv) : Option (List MuTestResult) :=
  let setup := setup_test_environment senv
  if setup.success then some (run_all_tests setup.test_files renv) else none

end MultiUserTestFramework

/-! Concrete fixtures and environments used by witnesses and counterexamples. -/

/-- The first generated scenario: owner reads the private file. -/
def sampleScenario : Scenario :=
  { scenario_id := 1, audience := "owner", visibility := "private", action := "read",
    is_owner := true, has_permission := false, expected := "ALLOW" }

/-- A single-file fixture set for the single-user framework. -/
def odFix : List (String × OneDriveTestFramework.OdFileEntry) :=
  [("private", { id := "FID1" })]

/-- A single-file fixture set for the multi-user framework. -/
def muFix : List (String × MultiUserTestFramework.MuFileEntry) :=
  [("private", { id := "MID1", name := "multiuser_test_private_file.txt" })]

/-- A remote environment answering every call with a fixed status. -/
def envStatus (st : Nat) : RemoteEnv := fun _ => .ok st

/-- A remote environment whose every call raises. -/
def envRaise : RemoteEnv := fun _ => .error "requests.exceptions.ConnectionError"

/-- A two-client remote environment answering every call with a fixed status. -/
def muEnvStatus (st : Nat) : MultiUserTestFramework.MuRemoteEnv := fun _ _ => .ok st

/-- A two-client remote environment whose every call raises. -/
def muEnvRaise : MultiUserTestFramework.MuRemoteEnv :=
  fun _ _ => .error "requests.exceptions.ConnectionError"

/-- A multi-user setup environment in which everything succeeds. -/
def muEnvOk : MultiUserTestFramework.MuSetupEnv :=
  { owner_info := { status_code := 200, userPrincipalName := some "owner@example.com",
                    mail := none },
    collab_info := { status_code := 200, userPrincipalName := some "collab@example.com",
                     mail := none },
    create := fun _filename _content => { status_code := 201, id := "CID", name := "n.txt" },
    share := fun _ _ _ => { status_code := 200, webUrl := some "https://1drv.ms/t/x" } }

/-- A multi-user setup environment in which both user-info calls succeed but
every file creation fails with HTTP 500. -/
def muEnvFailCreate : MultiUserTestFramework.MuSetupEnv :=
  { owner_info := { status_code := 200, userPrincipalName := some "owner@example.com",
                    mail := none },
    collab_info := { status_code := 200, userPrincipalName := some "collab@example.com",
                     mail := none },
    create := fun _filename _content => { status_code := 500, id := "", name := "" },
    share := fun _ _ _ => { status_code := 500, webUrl := none } }

/-- A single-user setup environment in which everything succeeds. -/
def odEnvOk : OneDriveTestFramework.SetupEnv :=
  { user_info_status := 200,
    create := fun _filename _content => { status_code := 201, id := "FID", name := "n.txt" },
    share := fun _ _ _ => { status_code := 201, shareId := some "u!abc", link_webUrl := none },
    invite := fun _ _ _ => { status_code := 200, first_link_webUrl := none } }

/-! Theorems. -/

/-- Helper: the generator produces exactly 48 scenario dictionaries. -/
theorem length_generate_all_scenarios : generate_all_scenarios.length = 48 := by decide

/-- Helper: the keys of the test_files dictionary built by the single-user
provisioning loop are exactly the visibilities whose create_file call
returned a success status — a failing creation is skipped, never fatal. -/
theorem od_setup_keys (env : OneDriveTestFramework.SetupEnv) :
    ∀ (l : List (String × String × String))
      (acc : List (String × OneDriveTestFramework.OdFileEntry)),
      (l.foldl (OneDriveTestFramework.setup_step env) acc).map Prod.fst
        = acc.map Prod.fst
          ++ (l.filter fun spec =>
                decide ((env.create spec.2.1 spec.2.2).status_code ∈ [200, 201])).map Prod.fst
  | [], acc => by simp
  | (v, fn, ct) :: tl, acc => by
    by_cases h : (env.create fn ct).status_code = 200 ∨ (env.create fn ct).status_code = 201 <;>
      simp [OneDriveTestFramework.setup_step, List.mem_cons, h, od_setup_keys env tl,
        List.filter_cons]

/-- C1 (counterexample): the classification tables of the two engines are
not the spec's table. In OneDriveTestFramework a 401 response classifies as
UNKNOWN, and in MultiUserTestFramework a 400 response classifies as
UNKNOWN, while the claim says both yield DENY. -/
theorem C1_counterexample :
    (OneDriveTestFramework.test_scenario "owner" odFix (envStatus 401) sampleScenario).toOption.map
        (fun c => c.result.actual) = some "UNKNOWN"
    ∧ (MultiUserTestFramework.test_scenario muFix (muEnvStatus 400) sampleScenario).result.actual
        = "UNKNOWN"
    ∧ ("UNKNOWN" : String) ≠ "DENY" :=
  ⟨rfl, rfl, by decide⟩

/-- C1 (amended): for every status code, OneDriveTestFramework.test_scenario
classifies 200/201 as ALLOW, 400/403/404 as DENY and everything else
(401 included) as UNKNOWN, while MultiUserTestFramework.test_scenario
classifies 200/201 as ALLOW, 403/404/401 as DENY and everything else
(400 included) as UNKNOWN; a raised exception yields ERROR in the
multi-user engine, whereas in the single-user engine the handler's ERROR
result is lost because the call then raises UnboundLocalError. -/
theorem C1_amended_classification (st : Nat) :
    OneDriveTestFramework.classify st
      = (if st = 200 ∨ st = 201 then "ALLOW"
         else if st = 400 ∨ st = 403 ∨ st = 404 then "DENY" else "UNKNOWN")
    ∧ MultiUserTestFramework.classify st
      = (if st = 200 ∨ st = 201 then "ALLOW"
         else if st = 403 ∨ st = 404 ∨ st = 401 then "DENY" else "UNKNOWN")
    ∧ (OneDriveTestFramework.test_scenario "owner" odFix (envStatus st) sampleScenario).toOption.map
        (fun c => c.result.actual) = some (OneDriveTestFramework.classify st)
    ∧ (MultiUserTestFramework.test_scenario muFix (muEnvStatus st) sampleScenario).result.actual
        = MultiUserTestFramework.classify st
    ∧ (MultiUserTestFramework.test_scenario muFix muEnvRaise sampleScenario).result.actual = "ERROR"
    ∧ OneDriveTestFramework.test_scenario "owner" odFix envRaise sampleScenario
        = .error (.unboundLocal "response") := by
  refine ⟨?_, ?_, rfl, rfl, rfl, rfl⟩ <;>
    simp [OneDriveTestFramework.classify, MultiUserTestFramework.classify]

/-- C2 (counterexample): with both user-info calls succeeding but every
file creation failing with HTTP 500, the multi-user setup still returns
True with an empty fixture set, and the run then executes all 48 scenarios,
each producing an ERROR result — the run is not aborted and scenario
results are produced, contradicting the claim of a fatal abort. -/
theorem C2_counterexample :
    (MultiUserTestFramework.setup_test_environment muEnvFailCreate).success = true
    ∧ (MultiUserTestFramework.setup_test_environment muEnvFailCreate).test_files = []
    ∧ (MultiUserTestFramework.mainFlow muEnvFailCreate (muEnvStatus 200)).map List.length
        = some 48
    ∧ ((MultiUserTestFramework.mainFlow muEnvFailCreate (muEnvStatus 200)).getD []).all
        (fun r => r.actual == "ERROR") = true :=
  ⟨rfl, rfl, rfl, rfl⟩

/-- C2 (amended): a failed resource creation does not abort provisioning in
either variant: the failing visibility is skipped and setup completes with
the remaining fixtures; the multi-user setup returns True whenever both
user-info calls succeed (creation outcomes are irrelevant to its return
value), so the run proceeds to execute all 48 scenarios; and the
single-user setup returns a fixture set whose keys are exactly the
visibilities whose creation succeeded. -/
theorem C2_amended_no_abort (senv : MultiUserTestFramework.MuSetupEnv)
    (renv : MultiUserTestFramework.MuRemoteEnv) (oenv : OneDriveTestFramework.SetupEnv)
    (ho : senv.owner_info.status_code = 200) (hc : senv.collab_info.status_code = 200) :
    (MultiUserTestFramework.setup_test_environment senv).success = true
    ∧ (MultiUserTestFramework.mainFlow senv renv).map List.length = some 48
    ∧ (OneDriveTestFramework.setup_test_environment oenv).map Prod.fst
        = (OneDriveTestFramework.specs.filter fun spec =>
            decide ((oenv.create spec.2.1 spec.2.2).status_code ∈ [200, 201])).map Prod.fst := by
  refine ⟨?_, ?_, ?_⟩
  · simp [MultiUserTestFramework.setup_test_environment, ho, hc]
  · simp [MultiUserTestFramework.mainFlow, MultiUserTestFramework.setup_test_environment,
      ho, hc, MultiUserTestFramework.run_all_tests, length_generate_all_scenarios]
  · simpa [OneDriveTestFramework.setup_test_environment]
      using od_setup_keys oenv OneDriveTestFramework.specs []

/-- C2 (witness for the amended theorem), at concrete environments in which
both user-info calls return 200. -/
theorem C2_amended_witness :
    muEnvOk.owner_info.status_code = 200 ∧ muEnvOk.collab_info.status_code = 200
    ∧ ((MultiUserTestFramework.setup_test_environment muEnvOk).success = true
       ∧ (MultiUserTestFramework.mainFlow muEnvOk (muEnvStatus 200)).map List.length = some 48
       ∧ (OneDriveTestFramework.setup_test_environment odEnvOk).map Prod.fst
           = (OneDriveTestFramework.specs.filter fun spec =>
               decide ((odEnvOk.create spec.2.1 spec.2.2).status_code ∈ [200, 201])).map Prod.fst) :=
  ⟨rfl, rfl, C2_amended_no_abort muEnvOk (muEnvStatus 200) odEnvOk rfl rfl⟩

/-- C3 (code bug, evaluated at the failing input): in OneDriveTestFramework,
when the dispatched client call raises, the except handler records ERROR
but the subsequent `return result, response` references the unbound local
`response`, so test_scenario raises UnboundLocalError instead of returning
a TestResult; the multi-user variant returns the ERROR result as the claim
describes. -/
theorem C3_bug_eval :
    OneDriveTestFramework.test_scenario "owner" odFix envRaise sampleScenario
      = .error (.unboundLocal "response")
    ∧ (MultiUserTestFramework.test_scenario muFix muEnvRaise sampleScenario).result.actual
        = "ERROR"
    ∧ (MultiUserTestFramework.test_scenario muFix muEnvRaise sampleScenario).result.passed
        = false :=
  ⟨rfl, rfl, rfl⟩

/-- C4: owner precedence — evaluate called with is_owner = true returns
ALLOW for every audience, visibility, action, has_permission and same_org. -/
theorem C4_owner_precedence (audience visibility action : String)
    (has_permission same_org : Bool) :
    evaluate audience visibility action true has_permission same_org = "ALLOW" := rfl

/-- C5: view-link restriction — with is_owner = false and
has_permission = true on public_view_link, read is allowed and every other
action is denied. -/
theorem C5_view_link_restriction (audience action : String) (same_org : Bool) :
    evaluate audience "public_view_link" "read" false true same_org = "ALLOW"
    ∧ (action ≠ "read" →
        evaluate audience "public_view_link" action false true same_org = "DENY") := by
  refine ⟨rfl, fun h => ?_⟩
  simp [evaluate, h]

/-- C5 (witness): the write action on a view link is denied even with
permission. -/
theorem C5_witness :
    ("write" : String) ≠ "read"
    ∧ evaluate "normal_user" "public_view_link" "write" false true false = "DENY" :=
  ⟨by decide, (C5_view_link_restriction "normal_user" "write" false).2 (by decide)⟩

/-- C6: a scenario whose visibility has no entry in test_files
short-circuits in both engines with actual = ERROR, passed = false and the
error field set, independently of the remote environment and with an empty
trace — no remote operation is dispatched. -/
theorem C6_missing_fixture (audience : String)
    (ofiles : List (String × OneDriveTestFramework.OdFileEntry)) (oenv : RemoteEnv)
    (mfiles : List (String × MultiUserTestFramework.MuFileEntry))
    (menv : MultiUserTestFramework.MuRemoteEnv) (scenario : Scenario)
    (ho : ofiles.lookup scenario.visibility = none)
    (hm : mfiles.lookup scenario.visibility = none) :
    OneDriveTestFramework.test_scenario audience ofiles oenv scenario
      = .ok { result := { scenario_id := scenario.scenario_id, scenario := scenario,
                          expected := scenario.expected, actual := "ERROR", passed := false,
                          error := some "Test file not found" },
              response := none, trace := [] }
    ∧ MultiUserTestFramework.test_scenario mfiles menv scenario
      = { result := { scenario_id := scenario.scenario_id, scenario := scenario,
                      expected := scenario.expected, actual := "ERROR", passed := false,
                      error := some "Test file not found" },
          trace := [] } := by
  constructor
  · simp [OneDriveTestFramework.test_scenario, ho]
  · simp [MultiUserTestFramework.test_scenario, hm]

/-- C6 (witness): with an empty fixture set, the owner-read scenario
produces the ERROR result with an empty trace in both engines. -/
theorem C6_witness :
    ([] : List (String × OneDriveTestFramework.OdFileEntry)).lookup sampleScenario.visibility = none
    ∧ ([] : List (String × MultiUserTestFramework.MuFileEntry)).lookup sampleScenario.visibility = none
    ∧ (OneDriveTestFramework.test_scenario "owner" [] envRaise sampleScenario
        = .ok { result := { scenario_id := sampleScenario.scenario_id,
                            scenario := sampleScenario,
                            expected := sampleScenario.expected, actual := "ERROR",
                            passed := false, error := some "Test file not found" },
                response := none, trace := [] }
       ∧ MultiUserTestFramework.test_scenario [] muEnvRaise sampleScenario
        = { result := { scenario_id := sampleScenario.scenario_id,
                        scenario := sampleScenario,
                        expected := sampleScenario.expected, actual := "ERROR",
                        passed := false, error := some "Test file not found" },
            trace := [] }) :=
  ⟨rfl, rfl, C6_missing_fixture "owner" [] envRaise [] muEnvRaise sampleScenario rfl rfl⟩

/-- C7: generate_all_scenarios returns exactly 3 × 4 × 4 = 48 scenarios,
enumerated audience-major, visibility-mid, action-minor, with scenario_id
equal to the 1-based position. -/
theorem C7_enumeration :
    generate_all_scenarios.length = 48
    ∧ ∀ i, i < 48 →
        (generate_all_scenarios.getD i defaultScenario).scenario_id = i + 1
        ∧ (generate_all_scenarios.getD i defaultScenario).audience = AUDIENCES.getD (i / 16) ""
        ∧ (generate_all_scenarios.getD i defaultScenario).visibility
            = VISIBILITY_LEVELS.getD (i / 4 % 4) ""
        ∧ (generate_all_scenarios.getD i defaultScenario).action = ACTIONS.getD (i % 4) "" :=
  ⟨length_generate_all_scenarios, by decide⟩

/-- C7 (witness): position 5 (0-based) carries id 6, audience owner,
visibility public_view_link, action write. -/
theorem C7_witness :
    (5 : Nat) < 48
    ∧ ((generate_all_scenarios.getD 5 defaultScenario).scenario_id = 5 + 1
       ∧ (generate_all_scenarios.getD 5 defaultScenario).audience = AUDIENCES.getD (5 / 16) ""
       ∧ (generate_all_scenarios.getD 5 defaultScenario).visibility
           = VISIBILITY_LEVELS.getD (5 / 4 % 4) ""
       ∧ (generate_all_scenarios.getD 5 defaultScenario).action = ACTIONS.getD (5 % 4) "") :=
  ⟨by decide, C7_enumeration.2 5 (by decide)⟩

/-- C8: every generated scenario derives its context by the fixed mapping —
is_owner iff the audience is owner; has_permission iff the visibility is a
public link class or the visibility is collab_invite with audience
invited_user — and freezes expected = evaluate at that derived context. -/
theorem C8_context_mapping :
    ∀ s ∈ generate_all_scenarios,
      s.is_owner = (s.audience == "owner")
      ∧ s.has_permission
          = ((s.visibility == "public_view_link") || (s.visibility == "public_edit_link")
              || ((s.visibility == "collab_invite") && (s.audience == "invited_user")))
      ∧ s.expected
          = evaluate s.audience s.visibility s.action s.is_owner s.has_permission false := by
  decide

/-- C8 (witness): the first generated scenario satisfies the context
mapping. -/
theorem C8_witness :
    sampleScenario ∈ generate_all_scenarios
    ∧ (sampleScenario.is_owner = (sampleScenario.audience == "owner")
       ∧ sampleScenario.has_permission
           = ((sampleScenario.visibility == "public_view_link")
               || (sampleScenario.visibility == "public_edit_link")
               || ((sampleScenario.visibility == "collab_invite")
                   && (sampleScenario.audience == "invited_user")))
       ∧ sampleScenario.expected
           = evaluate sampleScenario.audience sampleScenario.visibility sampleScenario.action
               sampleScenario.is_owner sampleScenario.has_permission false) :=
  ⟨by decide, C8_context_mapping sampleScenario (by decide)⟩

/-- C9: in both engines, a delete scenario plans exactly the same remote
operation as a read scenario on the same references — a metadata read,
never a destructive delete. -/
theorem C9_delete_read_proxy (use_share : Bool) (file_id share_id test_user : String) :
    OneDriveTestFramework.dispatch_plan "delete" use_share file_id share_id
      = OneDriveTestFramework.dispatch_plan "read" use_share file_id share_id
    ∧ OneDriveTestFramework.dispatch_plan "delete" use_share file_id share_id
      = some (if use_share then RemoteOp.readFileViaShare share_id
              else RemoteOp.readFile file_id)
    ∧ MultiUserTestFramework.dispatch_plan "delete" file_id test_user
      = MultiUserTestFramework.dispatch_plan "read" file_id test_user
    ∧ MultiUserTestFramework.dispatch_plan "delete" file_id test_user
      = some (RemoteOp.readFile file_id) :=
  ⟨rfl, rfl, rfl, rfl⟩

/-- C10: the policy decision never depends on the audience or same_org
arguments — any two calls agreeing on visibility, action, is_owner and
has_permission return the same outcome. -/
theorem C10_noninterference (audience audience2 visibility action : String)
    (is_owner has_permission same_org same_org2 : Bool) :
    evaluate audience visibility action is_owner has_permission same_org
      = evaluate audience2 visibility action is_owner has_permission same_org2 := rfl

end OneDriveAuth
